import Mathlib

/-!
Shallow embedding of the HealthSyncAI pipeline (src/app.py and
src/data_processor.py) and proofs about its claims.

Python strings are modelled as `List Char`; JSON values as the inductive
`JValue`; Python dicts as association lists with string keys.  The external
collaborators (the PDF text extractor, the language-model call and the
standard-library JSON parser `json.loads`) are opaque in the source and are
modelled as oracle parameters; `json.dumps` is modelled concretely since the
code relies on the text it produces.
-/

namespace HealthSync

/-- JSON values, the type of Python values produced by `json.loads` and held
in the dynamically typed records the pipeline passes between stages. -/
inductive JValue where
  | null : JValue
  | bool : Bool → JValue
  | num : Int → JValue
  | str : List Char → JValue
  | arr : List JValue → JValue
  | obj : List (String × JValue) → JValue

/-- Lookup in a Python dict modelled as an association list
(first binding wins; dict keys are unique). -/
def jLookup (kvs : List (String × JValue)) (k : String) : Option JValue :=
  match kvs with
  | [] => none
  | (k₀, v) :: rest => if k₀ = k then some v else jLookup rest k

/-- Python `dict.get(k, default)`. -/
def jGet (kvs : List (String × JValue)) (k : String) (d : JValue) : JValue :=
  (jLookup kvs k).getD d

/-- Python truthiness of a JSON-shaped value (`bool(v)`), as used by the
`or`-chains in `get_health_score_dynamic_langchain`. -/
def pyTruthy : JValue → Bool
  | .null => false
  | .bool b => b
  | .num n => n ≠ 0
  | .str s => s ≠ []
  | .arr xs => !xs.isEmpty
  | .obj kvs => !kvs.isEmpty

/-- Index of the first occurrence of `c` in `s`, if any
(helper for Python `str.find`). -/
def pyFindAux (c : Char) : List Char → Option Nat
  | [] => none
  | x :: xs => if x = c then some 0 else (pyFindAux c xs).map (· + 1)

/-- Python `s.find(c)`: index of the first occurrence of `c`, or `-1`. -/
def pyFind (s : List Char) (c : Char) : Int :=
  match pyFindAux c s with
  | none => -1
  | some n => n

/-- Index of the last occurrence of `c` in `s`, if any
(helper for Python `str.rfind`). -/
def pyRfindAux (c : Char) : List Char → Option Nat
  | [] => none
  | x :: xs =>
    match pyRfindAux c xs with
    | some n => some (n + 1)
    | none => if x = c then some 0 else none

/-- Python `s.rfind(c)`: index of the last occurrence of `c`, or `-1`. -/
def pyRfind (s : List Char) (c : Char) : Int :=
  match pyRfindAux c s with
  | none => -1
  | some n => n

/-- Python slice `s[a:b]` for non-negative bounds. -/
def pySlice (s : List Char) (a b : Nat) : List Char :=
  (s.take b).drop a

/-- Failure of the JSON-span locator: `ValueError("Could not find valid JSON
object in LLM response.")` raised at src/app.py:113. -/
inductive SpanError where
  | noJSONFound : SpanError
deriving DecidableEq

/-- JSON-span extraction from src/app.py lines 109-115: take the slice from
the first `'{'` (via `find`) to the last `'}'` (via `rfind`) inclusive;
raise if either is absent (`start_index == -1 or end_index == 0`). -/
def jsonSpanExtract (raw : List Char) : Except SpanError (List Char) :=
  let startIndex : Int := pyFind raw '{'
  let endIndex : Int := pyRfind raw '}' + 1
  if startIndex = -1 ∨ endIndex = 0 then
    .error .noJSONFound
  else
    .ok (pySlice raw startIndex.toNat endIndex.toNat)

/-- Result of an opaque external call (the language model, the PDF loader):
either the value it produced, or the message of the exception it raised. -/
inductive ExtResult (α : Type) where
  | ok : α → ExtResult α
  | exn : String → ExtResult α

/-- Python exceptions that the embedded code can raise. -/
inductive PyExn where
  | valueError : String → PyExn
  | indexError : PyExn
  | attributeError : PyExn
  | other : String → PyExn
deriving DecidableEq

/-- The message interpolated by Python `f"...{e}"` for an exception. -/
def PyExn.msg : PyExn → List Char
  | .valueError m => m.toList
  | .indexError => "list index out of range".toList
  | .attributeError => "object has no attribute 'get'".toList
  | .other m => m.toList

/-- Pydantic model `DynamicJSONModel` (src/data_processor.py:14-19):
a single field `data : Dict[str, Any]` with `default_factory=dict`. -/
structure DynamicJSONModel where
  data : List (String × JValue)

/-- Pydantic validation of a JSON value against `DynamicJSONModel`:
`data`, when present, must be a dict; when absent the default empty dict is
used; the top level must itself be an object. -/
def validateDynamicJSONModel (v : JValue) : Option DynamicJSONModel :=
  match v with
  | .obj kvs =>
    match jLookup kvs "data" with
    | none => some ⟨[]⟩
    | some (.obj d) => some ⟨d⟩
    | some _ => none
  | _ => none

/-- `DynamicJSONModel.model_dump()` as a Python dict (src/app.py:79). -/
def modelDumpDynamic (m : DynamicJSONModel) : List (String × JValue) :=
  [("data", .obj m.data)]

/-- Pydantic model `ExtractedHealthData` (src/data_processor.py:21-27):
`reportDate : str` and `healthParameters : Dict[str, Any]`, both required. -/
structure ExtractedHealthData where
  reportDate : List Char
  healthParameters : List (String × JValue)

/-- Pydantic validation of a JSON value against `ExtractedHealthData`:
the top level must be an object with a string `reportDate` and a dict
`healthParameters`; the values inside `healthParameters` are `Any`, so no
constraint is placed on its keys or values. -/
def validateExtractedHealthData (v : JValue) : Option ExtractedHealthData :=
  match v with
  | .obj kvs =>
    match jLookup kvs "reportDate", jLookup kvs "healthParameters" with
    | some (.str d), some (.obj ps) => some ⟨d, ps⟩
    | _, _ => none
  | _ => none

/-- Body of `extract_raw_json_from_pdf` (src/data_processor.py:41-85), the
code inside its `try`.  The PDF loader and the model call are opaque
externals, passed as oracles; the `PydanticOutputParser` at the end of the
chain validates the model's JSON against `DynamicJSONModel` and raises when
validation fails. -/
def extractRawJsonBody (textExtraction : ExtResult (List Char))
    (modelResponse : ExtResult JValue) : Except PyExn DynamicJSONModel :=
  match textExtraction with
  | .exn m => .error (.other m)
  | .ok _ =>
    match modelResponse with
    | .exn m => .error (.other m)
    | .ok v =>
      match validateDynamicJSONModel v with
      | none => .error (.other "OutputParserException")
      | some m => .ok m

/-- `extract_raw_json_from_pdf` (src/data_processor.py:37-89): the body in a
`try`, with `except Exception` returning `None` (lines 87-89). -/
def extract_raw_json_from_pdf (textExtraction : ExtResult (List Char))
    (modelResponse : ExtResult JValue) : Option DynamicJSONModel :=
  match extractRawJsonBody textExtraction modelResponse with
  | .error _ => none
  | .ok m => some m

/-- Body of `extract_specific_health_data` (src/data_processor.py:95-131),
the code inside its `try`: serialize the input, build the chain, invoke it,
and validate the model's JSON against `ExtractedHealthData`. -/
def extractSpecificBody (modelResponse : ExtResult JValue) :
    Except PyExn ExtractedHealthData :=
  match modelResponse with
  | .exn m => .error (.other m)
  | .ok v =>
    match validateExtractedHealthData v with
    | none => .error (.other "OutputParserException")
    | some g => .ok g

/-- `extract_specific_health_data` (src/data_processor.py:91-135): the body
in a `try`, with `except Exception` returning `None` (lines 133-135). -/
def extract_specific_health_data (modelResponse : ExtResult JValue) :
    Option ExtractedHealthData :=
  match extractSpecificBody modelResponse with
  | .error _ => none
  | .ok g => some g

/-- Python whitespace for `str.split()` with no argument: the characters on
which `str.isspace()` is true — ASCII whitespace, the C1 controls
`\x1c`-`\x1f`, `\x85`, and the Unicode space separators. -/
def pyIsSpace (c : Char) : Bool :=
  c = ' ' || c = '\t' || c = '\n' || c = '\x0d' || c = '\x0b' || c = '\x0c' ||
  c = '\x1c' || c = '\x1d' || c = '\x1e' || c = '\x1f' ||
  c = '\x85' || c = '\u00a0' || c = '\u1680' ||
  c = '\u2000' || c = '\u2001' || c = '\u2002' || c = '\u2003' ||
  c = '\u2004' || c = '\u2005' || c = '\u2006' || c = '\u2007' ||
  c = '\u2008' || c = '\u2009' || c = '\u200a' ||
  c = '\u2028' || c = '\u2029' || c = '\u202f' || c = '\u205f' ||
  c = '\u3000'

/-- Helper for `pySplitWs`: accumulates the current token (reversed). -/
def pySplitWsAux : List Char → List Char → List (List Char)
  | [], acc => if acc.isEmpty then [] else [acc.reverse]
  | c :: rest, acc =>
    if pyIsSpace c then
      if acc.isEmpty then pySplitWsAux rest []
      else acc.reverse :: pySplitWsAux rest []
    else pySplitWsAux rest (c :: acc)

/-- Python `s.split()`: split on runs of whitespace, dropping empty tokens. -/
def pySplitWs (s : List Char) : List (List Char) :=
  pySplitWsAux s []

/-- Continuation of a digit string after its first digit: digits, or single
underscores each followed by a digit (PEP 515 grouping). -/
def digitsAux : List Char → Nat → Option Nat
  | [], acc => some acc
  | '_' :: c :: rest, acc =>
    if c.isDigit then digitsAux rest (acc * 10 + (c.toNat - '0'.toNat))
    else none
  | ['_'], _ => none
  | c :: rest, acc =>
    if c.isDigit then digitsAux rest (acc * 10 + (c.toNat - '0'.toNat))
    else none

/-- Value of a digit string as `int()` reads it: a leading digit followed by
digits with optional PEP 515 underscore grouping (`"1_0"` is 10; leading,
trailing or doubled underscores are rejected). -/
def digitsToNat (s : List Char) : Option Nat :=
  match s with
  | [] => none
  | c :: rest =>
    if c.isDigit then digitsAux rest (c.toNat - '0'.toNat)
    else none

/-- Python `int(s)` on a token without surrounding whitespace: an optional
sign followed by underscore-groupable digits; `none` models the
`ValueError` raised on anything else. -/
def pyInt (s : List Char) : Option Int :=
  match s with
  | '+' :: rest => (digitsToNat rest).map Int.ofNat
  | '-' :: rest => (digitsToNat rest).map (fun n => -(n : Int))
  | _ => (digitsToNat s).map Int.ofNat

/-- JSON string escaping performed by `json.dumps` (quote and backslash;
the strings serialized by this program contain no control characters). -/
def jsonEscapeChar (c : Char) : List Char :=
  if c = '"' then ['\\', '"']
  else if c = '\\' then ['\\', '\\']
  else [c]

/-- Comma-separated concatenation, helper for `jDumps`. -/
def jJoinComma : List (List Char) → List Char
  | [] => []
  | [x] => x
  | x :: y :: rest => x ++ ',' :: ' ' :: jJoinComma (y :: rest)

mutual

/-- `json.dumps` (default separators) on the JSON values this program
serializes. -/
def jDumps : JValue → List Char
  | .null => "null".toList
  | .bool b => if b then "true".toList else "false".toList
  | .num n => n.repr.toList
  | .str s => '"' :: (s.flatMap jsonEscapeChar) ++ ['"']
  | .arr xs => '[' :: jJoinComma (jDumpsList xs) ++ [']']
  | .obj kvs => '{' :: jJoinComma (jDumpsFields kvs) ++ ['}']

/-- Serialize the elements of a JSON array. -/
def jDumpsList : List JValue → List (List Char)
  | [] => []
  | v :: rest => jDumps v :: jDumpsList rest

/-- Serialize the fields of a JSON object. -/
def jDumpsFields : List (String × JValue) → List (List Char)
  | [] => []
  | (k, v) :: rest =>
    ('"' :: (k.toList.flatMap jsonEscapeChar) ++ '"' :: ':' :: ' ' :: jDumps v)
      :: jDumpsFields rest

end

/-- The `age_str` expression of src/data_processor.py:143:
`patient_data.get("age") or patient_data.get("data", {}).get("age")`.
If `"data"` is bound to a non-dict value, `.get` on it raises
`AttributeError`. -/
def stage3AgeStr (pd : List (String × JValue)) : Except PyExn JValue :=
  let top := jGet pd "age" .null
  if pyTruthy top then .ok top
  else
    match jGet pd "data" (.obj []) with
    | .obj d => .ok (jGet d "age" .null)
    | _ => .error .attributeError

/-- The age-conversion block of src/data_processor.py:147-153.  Strings take
`int(age_str.split()[0])` — `IndexError` on an all-whitespace string,
`ValueError` on a non-numeric first token; `int` and `float` (and `bool`,
which Python treats as `int`) are truncated with `int(...)`; every other
value falls to the default `30`. -/
def stage3ConvertAge (ageStr : JValue) : Except PyExn Int :=
  match ageStr with
  | .str s =>
    match pySplitWs s with
    | [] => .error .indexError
    | t :: _ =>
      match pyInt t with
      | some n => .ok n
      | none => .error (.valueError "invalid literal for int() with base 10")
  | .num n => .ok n
  | .bool b => .ok (if b then 1 else 0)
  | _ => .ok 30

/-- The age normalization of stage 3 (src/data_processor.py:143-153):
locate the age value, then convert it. -/
def stage3Age (pd : List (String × JValue)) : Except PyExn Int :=
  (stage3AgeStr pd).bind stage3ConvertAge

/-- The `gender` expression of src/data_processor.py:144 with the
`"Unknown"` defaulting of lines 156-157. -/
def stage3Gender (pd : List (String × JValue)) : Except PyExn JValue :=
  let top := jGet pd "gender" .null
  if pyTruthy top then .ok top
  else
    match jGet pd "data" (.obj []) with
    | .obj d =>
      let nested := jGet d "gender" .null
      if pyTruthy nested then .ok nested
      else
        let sex := jGet d "sex" .null
        if pyTruthy sex then .ok sex else .ok (.str "Unknown".toList)
    | _ => .error .attributeError

/-- Body of `get_health_score_dynamic_langchain`
(src/data_processor.py:141-202), the code inside its `try`: normalize age
and gender, build the two-turn prompt, invoke the model and return its raw
content.  The model call is an opaque external passed as an oracle. -/
def getHealthScoreBody (pd : List (String × JValue))
    (llmResponse : ExtResult (List Char)) : Except PyExn (List Char) := do
  let ageStr ← stage3AgeStr pd
  let _gender ← stage3Gender pd
  let _age ← stage3ConvertAge ageStr
  match llmResponse with
  | .exn m => .error (.other m)
  | .ok content => .ok content

/-- The sentinel dict built at src/data_processor.py:205:
`{"score": -1, "reasoning": f"Error: {e}"}`. -/
def scoreSentinelFields (e : PyExn) : List (String × JValue) :=
  [("score", .num (-1)), ("reasoning", .str ("Error: ".toList ++ e.msg))]

/-- `get_health_score_dynamic_langchain` (src/data_processor.py:137-205):
the body in a `try`; `except Exception` returns
`json.dumps({"score": -1, "reasoning": f"Error: {e}"})`. -/
def get_health_score_dynamic_langchain (pd : List (String × JValue))
    (llmResponse : ExtResult (List Char)) : List Char :=
  match getHealthScoreBody pd llmResponse with
  | .ok content => content
  | .error e => jDumps (.obj (scoreSentinelFields e))

/-- Oracles for one pipeline run: the two opaque externals behind stage 1,
the model calls behind stages 3 and 2, and `json.loads` (stdlib, opaque)
used by the presentation layer on stage 3's output.  `loads` returns `none`
where `json.loads` raises `json.JSONDecodeError`. -/
structure RunInputs where
  stage1Text : ExtResult (List Char)
  stage1Model : ExtResult JValue
  stage3Model : ExtResult (List Char)
  stage2Model : ExtResult JValue
  loads : List Char → Option JValue

/-- Observable outcome of the upload flow of src/app.py:76-178. -/
structure RunOutcome where
  /-- `st.error("🔴 Failed to extract structured JSON from the PDF.")`
  (src/app.py:173): stage 1 returned `None`. -/
  stage1Failed : Bool
  /-- `get_health_score_dynamic_langchain` was called (src/app.py:105). -/
  stage3Invoked : Bool
  /-- `extract_specific_health_data` was called (src/app.py:154). -/
  stage2Invoked : Bool
  /-- The score rendered by `st.metric` (src/app.py:118,125), if reached. -/
  displayedScore : Option JValue
  /-- The summary rendered by `st.info` (src/app.py:119,128), if reached. -/
  displayedSummary : Option JValue
  /-- The breakdown rendered by `st.dataframe` (src/app.py:120,143). -/
  displayedBreakdown : Option JValue
  /-- `st.code(health_score_raw_output, ...)` (src/app.py:168): the stage-3
  raw text shown verbatim, only in the `json.JSONDecodeError` handler. -/
  displayedRawStage3 : Option (List Char)
  /-- Stage 2's reported result (src/app.py:155-164): `some (some g)` when a
  record was shown, `some none` when its failure message was shown, `none`
  when stage 2 never ran. -/
  stage2Report : Option (Option ExtractedHealthData)
  /-- The `st.error` message of the analysis `try`'s handlers
  (src/app.py:166-170), if one fired. -/
  analysisError : Option (List Char)

/-- The `st.error` text of the `json.JSONDecodeError` handler
(src/app.py:167). -/
def jsonDecodeErrorMsg : List Char :=
  ("Error: Could not parse the LLM's health score output. " ++
    "Displaying raw output:").toList

/-- The `st.error` text of the generic `except Exception` handler
(src/app.py:170), interpolating the exception. -/
def unexpectedErrorMsg (e : List Char) : List Char :=
  "An unexpected error occurred during analysis: ".toList ++ e

/-- The `ValueError` message raised at src/app.py:113. -/
def noJSONFoundMsg : List Char :=
  "Could not find valid JSON object in LLM response.".toList

/-- The upload flow of src/app.py:76-178, given a successful stage-1 record
`m`: run stage 3, then inside a `try`: locate the JSON span of its raw
output (raising `ValueError` when absent), `json.loads` the slice, read
`score`/`summary_reasoning`/`detailed_breakdown` with `.get` defaults,
display them, and only then run stage 2 and report its result.
`json.JSONDecodeError` is handled by showing the raw stage-3 text;
every other exception (including the `ValueError` and the `AttributeError`
from `.get` on a non-dict) by a generic message without the raw text. -/
def analysisPhase (inp : RunInputs) (m : DynamicJSONModel) : RunOutcome :=
  let raw := get_health_score_dynamic_langchain (modelDumpDynamic m) inp.stage3Model
  match jsonSpanExtract raw with
  | .error .noJSONFound =>
    { stage1Failed := false, stage3Invoked := true, stage2Invoked := false
      displayedScore := none, displayedSummary := none
      displayedBreakdown := none, displayedRawStage3 := none
      stage2Report := none
      analysisError := some (unexpectedErrorMsg noJSONFoundMsg) }
  | .ok span =>
    match inp.loads span with
    | none =>
      { stage1Failed := false, stage3Invoked := true, stage2Invoked := false
        displayedScore := none, displayedSummary := none
        displayedBreakdown := none, displayedRawStage3 := some raw
        stage2Report := none, analysisError := some jsonDecodeErrorMsg }
    | some (.obj kvs) =>
      { stage1Failed := false, stage3Invoked := true, stage2Invoked := true
        displayedScore := some (jGet kvs "score" (.num 0))
        displayedSummary :=
          some (jGet kvs "summary_reasoning" (.str "No summary provided.".toList))
        displayedBreakdown := some (jGet kvs "detailed_breakdown" (.arr []))
        displayedRawStage3 := none
        stage2Report := some (extract_specific_health_data inp.stage2Model)
        analysisError := none }
    | some _ =>
      { stage1Failed := false, stage3Invoked := true, stage2Invoked := false
        displayedScore := none, displayedSummary := none
        displayedBreakdown := none, displayedRawStage3 := none
        stage2Report := none
        analysisError :=
          some (unexpectedErrorMsg PyExn.attributeError.msg) }

/-- The full upload flow of src/app.py:76-178: run stage 1; on `None` report
total failure and stop (lines 172-173); otherwise run the analysis phase. -/
def runPipeline (inp : RunInputs) : RunOutcome :=
  match extract_raw_json_from_pdf inp.stage1Text inp.stage1Model with
  | none =>
    { stage1Failed := true, stage3Invoked := false, stage2Invoked := false
      displayedScore := none, displayedSummary := none
      displayedBreakdown := none, displayedRawStage3 := none
      stage2Report := none, analysisError := none }
  | some m => analysisPhase inp m

/-! ## General lemmas about the embedded Python primitives -/

/-- `rfind` on a list ending in `c` returns the index of that final
element, whatever comes before it. -/
theorem pyRfindAux_append_last (c : Char) (ys : List Char) :
    pyRfindAux c (ys ++ [c]) = some ys.length := by
  induction ys with
  | nil => simp [pyRfindAux]
  | cons y ys ih => simp [pyRfindAux, ih]

/-- `find` on a list starting with `c` returns index `0`. -/
theorem pyFindAux_cons_self (c : Char) (xs : List Char) :
    pyFindAux c (c :: xs) = some 0 := by
  simp [pyFindAux]

/-! ## Claims -/

/-- Claim C6.  For every raw text: when a first `'{'` (index `i`) and a last
`'}'` (index `j`) both exist, JSON-span extraction returns exactly the slice
`raw[i : j+1]` — so everything before the first `'{'` and after the last
`'}'` is discarded, as witnessed by the decomposition of `raw` into prefix,
span and suffix — and the orchestrator parses exactly that slice
(`analysisPhase` applies `loads` to `jsonSpanExtract`'s output and to
nothing else); when either brace is absent, it fails with the
no-JSON-found error before any parse is attempted. -/
theorem c6_span_selection (raw : List Char) :
    ((pyFindAux '{' raw = none ∨ pyRfindAux '}' raw = none) →
      jsonSpanExtract raw = .error .noJSONFound) ∧
    (∀ i j, pyFindAux '{' raw = some i → pyRfindAux '}' raw = some j →
      jsonSpanExtract raw = .ok (pySlice raw i (j + 1)) ∧
      (i ≤ j →
        raw = raw.take i ++ pySlice raw i (j + 1) ++ raw.drop (j + 1))) := by
  constructor
  · rintro (h | h) <;> simp [jsonSpanExtract, pyFind, pyRfind, h]
  · intro i j hi hj
    have hcond : ¬((i : Int) = -1 ∨ (j : Int) + 1 = 0) := by omega
    have htn1 : ((i : Int)).toNat = i := Int.toNat_ofNat i
    have htn2 : ((j : Int) + 1).toNat = j + 1 := by omega
    constructor
    · simp only [jsonSpanExtract, pyFind, pyRfind, hi, hj]
      rw [if_neg hcond, htn1, htn2]
    · intro hij
      have hij1 : i ≤ j + 1 := Nat.le_succ_of_le hij
      have hsplit : raw.take i ++ pySlice raw i (j + 1) = raw.take (j + 1) := by
        have h := List.take_append_drop i (raw.take (j + 1))
        rw [List.take_take, inf_eq_left.mpr hij1] at h
        exact h
      calc raw = raw.take (j + 1) ++ raw.drop (j + 1) :=
            (List.take_append_drop _ _).symm
        _ = raw.take i ++ pySlice raw i (j + 1) ++ raw.drop (j + 1) := by
            rw [hsplit]

/-- The raw stage-3 text of the C6 witness scenario: prose and markdown
fencing around a JSON object. -/
def c6Raw : List Char :=
  "Sure! ```json\n\x7b\"score\": 95\x7d\n``` hope this helps".toList

/-- Witness for C6 at a concrete raw text with prose and fencing around the
object: the extracted span is exactly the object text, and the input
decomposes into discarded prefix, span, discarded suffix. -/
theorem c6_span_selection_witness :
    jsonSpanExtract c6Raw = .ok (pySlice c6Raw 14 27) ∧
    c6Raw = c6Raw.take 14 ++ pySlice c6Raw 14 27 ++ c6Raw.drop 27 := by
  have h := (c6_span_selection c6Raw).2 14 26 (by rfl) (by rfl)
  exact ⟨h.1, h.2 (by decide)⟩

/-- Claim C8.  JSON-span extraction is idempotent on minimal valid object
texts: on any text whose first character is the opening `'{'` and whose last
character is the closing `'}'`, extraction returns the text unchanged, so
re-running it on its own output of such an object returns the same text. -/
theorem c8_span_extraction_idempotent (s : List Char)
    (h1 : s.head? = some '{') (h2 : s.getLast? = some '}') :
    jsonSpanExtract s = .ok s := by
  obtain ⟨t, rfl⟩ := List.getLast?_eq_some_iff.mp h2
  match t with
  | [] => simp at h1
  | c :: t' =>
    have hc : c = '{' := by simpa using h1
    subst hc
    have hf : pyFindAux '{' (('{' :: t') ++ ['}']) = some 0 :=
      pyFindAux_cons_self '{' (t' ++ ['}'])
    have hr : pyRfindAux '}' (('{' :: t') ++ ['}']) = some ('{' :: t').length :=
      pyRfindAux_append_last '}' ('{' :: t')
    have hcond :
        ¬(((0 : Nat) : Int) = -1 ∨ ((('{' :: t').length : Int)) + 1 = 0) := by
      omega
    have hlen :
        ((('{' :: t').length : Int) + 1).toNat = ('{' :: t' ++ ['}']).length := by
      simp only [List.length_cons, List.length_append, List.length_nil]
      omega
    simp only [jsonSpanExtract, pyFind, pyRfind, hf, hr, pySlice]
    rw [if_neg hcond, hlen, Int.toNat_ofNat, List.take_length, List.drop_zero]

/-- Witness for C8: re-extracting from the minimal object text
`"{\"a\": 1}"` returns it unchanged. -/
theorem c8_span_extraction_idempotent_witness :
    jsonSpanExtract "\x7b\"a\": 1\x7d".toList = .ok "\x7b\"a\": 1\x7d".toList :=
  c8_span_extraction_idempotent "\x7b\"a\": 1\x7d".toList (by rfl) (by rfl)

/-- Oracles of the C1 counterexample run: stage 1 succeeds, stage 3's model
answers with prose containing no brace, and stage 2's model would answer
with a perfectly valid record — which is never requested. -/
def c1Inputs : RunInputs :=
  { stage1Text := .ok "Routine urine examination report".toList
    stage1Model := .ok (.obj [("data", .obj [("age", .num 30)])])
    stage3Model := .ok "I cannot analyze this report.".toList
    stage2Model := .ok (.obj [("reportDate", .str "2024-01-15".toList),
      ("healthParameters", .obj [("sugar", .str "negative".toList)])])
    loads := fun _ => none }

/-- Counterexample to claim C1 at a concrete run: stage 1 returns a non-null
record and stage 3 runs, but its output has no JSON span, so the
orchestrator's handler fires and stage 2 is never invoked and never
reported — even though stage 2's model response was valid. -/
theorem c1_counterexample :
    (runPipeline c1Inputs).stage1Failed = false ∧
    (runPipeline c1Inputs).stage3Invoked = true ∧
    jsonSpanExtract (get_health_score_dynamic_langchain
      (modelDumpDynamic ⟨[("age", .num 30)]⟩) c1Inputs.stage3Model) =
      .error .noJSONFound ∧
    (runPipeline c1Inputs).stage2Invoked = false ∧
    (runPipeline c1Inputs).stage2Report = none ∧
    extract_specific_health_data c1Inputs.stage2Model =
      some ⟨"2024-01-15".toList, [("sugar", .str "negative".toList)]⟩ := by
  exact ⟨rfl, rfl, rfl, rfl, rfl, rfl⟩

/-- Claim C1 as amended.  Whenever stage 1 returns a non-null record, the
orchestrator invokes stage 3; stage 2, however, is invoked exactly when
stage 3's raw output yields a JSON span that `json.loads` parses to an
object — a failure to locate or parse the span skips stage 2 entirely.
When stage 2 is invoked, its result is reported whatever it is, and
stage 3's parsed score is reported whatever stage 2 returns. -/
theorem c1_orchestration (inp : RunInputs) (m : DynamicJSONModel)
    (h : extract_raw_json_from_pdf inp.stage1Text inp.stage1Model = some m) :
    (runPipeline inp).stage3Invoked = true ∧
    ((runPipeline inp).stage2Invoked = true ↔
      ∃ span kvs,
        jsonSpanExtract (get_health_score_dynamic_langchain
          (modelDumpDynamic m) inp.stage3Model) = .ok span ∧
        inp.loads span = some (.obj kvs)) ∧
    (∀ span kvs,
      jsonSpanExtract (get_health_score_dynamic_langchain
        (modelDumpDynamic m) inp.stage3Model) = .ok span →
      inp.loads span = some (.obj kvs) →
      (runPipeline inp).stage2Report =
        some (extract_specific_health_data inp.stage2Model) ∧
      (runPipeline inp).displayedScore = some (jGet kvs "score" (.num 0))) := by
  simp only [runPipeline, h, analysisPhase]
  split
  · rename_i heq
    refine ⟨rfl, ?_, ?_⟩
    · simp [heq]
    · intro span kvs h1 h2
      rw [heq] at h1
      exact Except.noConfusion h1
  · rename_i span heq
    split
    · rename_i hload
      refine ⟨rfl, ?_, ?_⟩
      · constructor
        · intro h2i
          exact absurd h2i (by simp)
        · rintro ⟨span2, kvs2, h1, h2⟩
          rw [heq, Except.ok.injEq] at h1
          subst h1
          rw [hload] at h2
          exact Option.noConfusion h2
      · intro span2 kvs2 h1 h2
        rw [heq, Except.ok.injEq] at h1
        subst h1
        rw [hload] at h2
        exact Option.noConfusion h2
    · rename_i kvs hload
      refine ⟨rfl, ?_, ?_⟩
      · exact ⟨fun _ => ⟨span, kvs, heq, hload⟩, fun _ => rfl⟩
      · intro span2 kvs2 h1 h2
        rw [heq, Except.ok.injEq] at h1
        subst h1
        rw [hload, Option.some.injEq, JValue.obj.injEq] at h2
        subst h2
        exact ⟨rfl, rfl⟩
    · rename_i val hne hload
      refine ⟨rfl, ?_, ?_⟩
      · constructor
        · intro h2i
          exact absurd h2i (by simp)
        · rintro ⟨span2, kvs2, h1, h2⟩
          rw [heq, Except.ok.injEq] at h1
          subst h1
          rw [hload, Option.some.injEq] at h2
          exact absurd h2 (hne kvs2)
      · intro span2 kvs2 h1 h2
        rw [heq, Except.ok.injEq] at h1
        subst h1
        rw [hload, Option.some.injEq] at h2
        exact absurd h2 (hne kvs2)

/-- Witness inputs for the amended C1: every stage succeeds. -/
def c1WitnessInputs : RunInputs :=
  { stage1Text := .ok "Routine urine examination".toList
    stage1Model := .ok (.obj [("data", .obj [("sugar", .str "negative".toList)])])
    stage3Model := .ok "```json\n\x7b\"score\": 90\x7d\n```".toList
    stage2Model := .ok (.obj [("reportDate", .str "2024-01-15".toList),
      ("healthParameters", .obj [])])
    loads := fun s =>
      if s = "\x7b\"score\": 90\x7d".toList then some (.obj [("score", .num 90)])
      else none }

/-- Witness for the amended C1 on a fully successful run: stage 3 and then
stage 2 are invoked, stage 2's result is reported and the parsed score is
displayed. -/
theorem c1_orchestration_witness :
    (runPipeline c1WitnessInputs).stage3Invoked = true ∧
    (runPipeline c1WitnessInputs).stage2Invoked = true ∧
    (runPipeline c1WitnessInputs).stage2Report =
      some (extract_specific_health_data c1WitnessInputs.stage2Model) ∧
    (runPipeline c1WitnessInputs).displayedScore = some (.num 90) := by
  have h := c1_orchestration c1WitnessInputs
    ⟨[("sugar", .str "negative".toList)]⟩ (by rfl)
  have h3 := h.2.2 "\x7b\"score\": 90\x7d".toList [("score", .num 90)]
    (by rfl) (by rfl)
  refine ⟨h.1, h.2.1.mpr ⟨"\x7b\"score\": 90\x7d".toList, [("score", .num 90)],
    by rfl, by rfl⟩, h3.1, ?_⟩
  rw [h3.2]
  rfl

/-- Oracles of the C7 counterexample run: stage 3's output contains no
brace, so span location fails. -/
def c7Inputs : RunInputs :=
  { stage1Text := .ok "Urine report".toList
    stage1Model := .ok (.obj [("data", .obj [])])
    stage3Model := .ok "No structured output available".toList
    stage2Model := .ok .null
    loads := fun _ => none }

/-- Counterexample to claim C7 at a concrete run: stage-3 post-processing
fails in the no-JSON-found case, yet the raw text is not shown — the
handler displays only a generic error message. -/
theorem c7_counterexample :
    (runPipeline c7Inputs).stage1Failed = false ∧
    jsonSpanExtract (get_health_score_dynamic_langchain
      (modelDumpDynamic ⟨[]⟩) c7Inputs.stage3Model) = .error .noJSONFound ∧
    (runPipeline c7Inputs).displayedRawStage3 = none ∧
    (runPipeline c7Inputs).analysisError =
      some (unexpectedErrorMsg noJSONFoundMsg) :=
  ⟨rfl, rfl, rfl, rfl⟩

/-- Claim C7 as amended.  Only the malformed-JSON failure (a span was
located but `json.loads` fails on it) shows the stage-3 raw text verbatim;
the no-JSON-found failure shows a generic error message without the raw
text. -/
theorem c7_raw_text_display (inp : RunInputs) (m : DynamicJSONModel)
    (h : extract_raw_json_from_pdf inp.stage1Text inp.stage1Model = some m) :
    (∀ span,
      jsonSpanExtract (get_health_score_dynamic_langchain
        (modelDumpDynamic m) inp.stage3Model) = .ok span →
      inp.loads span = none →
      (runPipeline inp).displayedRawStage3 =
        some (get_health_score_dynamic_langchain
          (modelDumpDynamic m) inp.stage3Model) ∧
      (runPipeline inp).analysisError = some jsonDecodeErrorMsg) ∧
    (jsonSpanExtract (get_health_score_dynamic_langchain
        (modelDumpDynamic m) inp.stage3Model) = .error .noJSONFound →
      (runPipeline inp).displayedRawStage3 = none ∧
      (runPipeline inp).analysisError =
        some (unexpectedErrorMsg noJSONFoundMsg)) := by
  constructor
  · intro span hspan hload
    simp [runPipeline, h, analysisPhase, hspan, hload]
  · intro hspan
    simp [runPipeline, h, analysisPhase, hspan]

/-- Witness inputs for the amended C7: stage 3's output is a span that is
located but does not parse as JSON. -/
def c7WitnessInputs : RunInputs :=
  { stage1Text := .ok "Urine report".toList
    stage1Model := .ok (.obj [])
    stage3Model := .ok "\x7b\"score\": \x7d".toList
    stage2Model := .ok .null
    loads := fun _ => none }

/-- Witness for the amended C7 on a concrete malformed-JSON run: the raw
stage-3 text is shown verbatim together with the parse-failure message. -/
theorem c7_raw_text_display_witness :
    (runPipeline c7WitnessInputs).displayedRawStage3 =
      some "\x7b\"score\": \x7d".toList ∧
    (runPipeline c7WitnessInputs).analysisError = some jsonDecodeErrorMsg := by
  have h := (c7_raw_text_display c7WitnessInputs ⟨[]⟩ (by rfl)).1
    "\x7b\"score\": \x7d".toList (by rfl) (by rfl)
  refine ⟨?_, h.2⟩
  rw [h.1]
  rfl

/-- Claim C9.  When stage 3's output yields a span that parses to a JSON
object, the presentation layer substitutes defaults for missing fields:
score `0`, summary `"No summary provided."`, breakdown `[]` — it neither
fails nor uses the `-1` failure sentinel. -/
theorem c9_presentation_defaults (inp : RunInputs) (m : DynamicJSONModel)
    (span : List Char) (kvs : List (String × JValue))
    (h : extract_raw_json_from_pdf inp.stage1Text inp.stage1Model = some m)
    (hspan : jsonSpanExtract (get_health_score_dynamic_langchain
      (modelDumpDynamic m) inp.stage3Model) = .ok span)
    (hload : inp.loads span = some (.obj kvs)) :
    (jLookup kvs "score" = none →
      (runPipeline inp).displayedScore = some (.num 0)) ∧
    (jLookup kvs "summary_reasoning" = none →
      (runPipeline inp).displayedSummary =
        some (.str "No summary provided.".toList)) ∧
    (jLookup kvs "detailed_breakdown" = none →
      (runPipeline inp).displayedBreakdown = some (.arr [])) ∧
    (runPipeline inp).analysisError = none := by
  simp only [runPipeline, h, analysisPhase, hspan, hload]
  refine ⟨?_, ?_, ?_, trivial⟩
  · intro hs
    simp [jGet, hs]
  · intro hs
    simp [jGet, hs]
  · intro hs
    simp [jGet, hs]

/-- Witness inputs for C9: stage 3's parsed object lacks all three fields. -/
def c9WitnessInputs : RunInputs :=
  { stage1Text := .ok "Urine report".toList
    stage1Model := .ok (.obj [])
    stage3Model := .ok "\x7b\"note\": 1\x7d".toList
    stage2Model := .ok .null
    loads := fun s =>
      if s = "\x7b\"note\": 1\x7d".toList then some (.obj [("note", .num 1)])
      else none }

/-- Witness for C9 on a concrete run whose parsed stage-3 object has none of
the three expected fields: all three defaults are displayed. -/
theorem c9_presentation_defaults_witness :
    (runPipeline c9WitnessInputs).displayedScore = some (.num 0) ∧
    (runPipeline c9WitnessInputs).displayedSummary =
      some (.str "No summary provided.".toList) ∧
    (runPipeline c9WitnessInputs).displayedBreakdown = some (.arr []) ∧
    (runPipeline c9WitnessInputs).analysisError = none := by
  have h := c9_presentation_defaults c9WitnessInputs ⟨[]⟩
    "\x7b\"note\": 1\x7d".toList [("note", .num 1)] (by rfl) (by rfl) (by rfl)
  exact ⟨h.1 (by rfl), h.2.1 (by rfl), h.2.2.1 (by rfl), h.2.2.2⟩

/-- Counterexample to claim C2 at a concrete record: the unparsable age
string `"N/A"` does not fall back to the default 30 — `int("N/A")` raises a
`ValueError` out of the normalization step, and the whole stage-3 call
therefore returns the `-1` sentinel instead of proceeding with age 30. -/
theorem c2_counterexample :
    stage3Age [("age", .str "N/A".toList)] =
      .error (.valueError "invalid literal for int() with base 10") ∧
    stage3Age [("age", .str "N/A".toList)] ≠ .ok 30 ∧
    get_health_score_dynamic_langchain [("age", .str "N/A".toList)]
        (.ok "\x7b\"score\": 88\x7d".toList) =
      jDumps (.obj (scoreSentinelFields
        (.valueError "invalid literal for int() with base 10"))) := by
  refine ⟨rfl, ?_, rfl⟩
  intro hcontra
  rw [show stage3Age [("age", .str "N/A".toList)] =
      .error (.valueError "invalid literal for int() with base 10") from rfl]
    at hcontra
  exact Except.noConfusion hcontra

/-- Claim C2 as amended.  Stage-3 age normalization first resolves the age
value exactly as the `or`-chain of src/data_processor.py:143 does — the
top-level `age` when truthy, otherwise the one nested under `data` (absent
keys resolving to `None`) — and then converts whatever was resolved:
a string of the form `"<integer> <unit...>"` yields its leading integer,
a numeric value is truncated to an integer (in the embedding JSON numbers
are integers, so `int(...)` is the identity), and `None` yields the
default 30; but a string whose first token is not an integer (`"N/A"`)
raises `ValueError` out of the normalization step — it is caught only by
the function-level handler, which produces the `-1` sentinel instead of
the default 30. -/
theorem c2_age_normalization :
    (∀ pd v, jLookup pd "age" = some v → pyTruthy v = true →
      stage3AgeStr pd = .ok v) ∧
    (∀ pd d, pyTruthy (jGet pd "age" .null) = false →
      jLookup pd "data" = some (.obj d) →
      stage3AgeStr pd = .ok (jGet d "age" .null)) ∧
    (∀ pd, pyTruthy (jGet pd "age" .null) = false →
      jLookup pd "data" = none → stage3AgeStr pd = .ok .null) ∧
    (∀ pd s t ts n, stage3AgeStr pd = .ok (.str s) →
      pySplitWs s = t :: ts → pyInt t = some n → stage3Age pd = .ok n) ∧
    (∀ pd n, stage3AgeStr pd = .ok (.num n) → stage3Age pd = .ok n) ∧
    (∀ pd, stage3AgeStr pd = .ok .null → stage3Age pd = .ok 30) ∧
    (∀ pd s t ts, stage3AgeStr pd = .ok (.str s) →
      pySplitWs s = t :: ts → pyInt t = none →
      stage3Age pd =
        .error (.valueError "invalid literal for int() with base 10")) := by
  refine ⟨?_, ?_, ?_, ?_, ?_, ?_, ?_⟩
  · intro pd v hage htr
    simp [stage3AgeStr, jGet, hage, htr]
  · intro pd d hfalse hdata
    have hfalse2 : pyTruthy ((jLookup pd "age").getD .null) = false := hfalse
    simp only [stage3AgeStr, jGet, hdata, Option.getD_some, hfalse2,
      Bool.false_eq_true, if_false]
  · intro pd hfalse hdata
    have hfalse2 : pyTruthy ((jLookup pd "age").getD .null) = false := hfalse
    simp [stage3AgeStr, jGet, jLookup, hdata, hfalse2]
  · intro pd s t ts n hres hsplit hint
    simp [stage3Age, hres, Except.bind, stage3ConvertAge, hsplit, hint]
  · intro pd n hres
    simp [stage3Age, hres, Except.bind, stage3ConvertAge]
  · intro pd hres
    simp [stage3Age, hres, Except.bind, stage3ConvertAge]
  · intro pd s t ts hres hsplit hint
    simp [stage3Age, hres, Except.bind, stage3ConvertAge, hsplit, hint]

/-- Witness for the amended C2 at the spec examples in both of the record
shapes stage 3 receives: a top-level and a nested `"23 Years"` give 23,
a top-level and a nested `45` give 45, a record with neither age gives 30,
and a `None` age over an ageless `data` dict gives 30. -/
theorem c2_age_normalization_witness :
    stage3Age [("age", .str "23 Years".toList)] = .ok 23 ∧
    stage3Age [("data", .obj [("age", .str "23 Years".toList)])] = .ok 23 ∧
    stage3Age [("age", .num 45)] = .ok 45 ∧
    stage3Age [("data", .obj [("age", .num 45)])] = .ok 45 ∧
    stage3Age [] = .ok 30 ∧
    stage3Age [("age", .null), ("data", .obj [])] = .ok 30 := by
  have h := c2_age_normalization
  refine ⟨?_, ?_, ?_, ?_, ?_, ?_⟩
  · exact h.2.2.2.1 _ "23 Years".toList "23".toList ["Years".toList] 23
      (by rfl) (by rfl) (by rfl)
  · exact h.2.2.2.1 _ "23 Years".toList "23".toList ["Years".toList] 23
      (by rfl) (by rfl) (by rfl)
  · exact h.2.2.2.2.1 _ 45 (by rfl)
  · exact h.2.2.2.2.1 _ 45 (by rfl)
  · exact h.2.2.2.2.2.1 _ (by rfl)
  · exact h.2.2.2.2.2.1 _ (by rfl)

/-- Claim C4.  Whenever any step inside stage 3's `try` raises, the
function returns the serialization of `{"score": -1, "reasoning":
"Error: <message>"}`: the object's `score` entry is present and equals
`-1` (never null or absent), and the `reasoning` entry carries the error
message.  No exception propagates — in the embedding the function is total
and maps every error of the body to this sentinel string. -/
theorem c4_score_sentinel (pd : List (String × JValue))
    (llmResponse : ExtResult (List Char)) (e : PyExn)
    (h : getHealthScoreBody pd llmResponse = .error e) :
    get_health_score_dynamic_langchain pd llmResponse =
      jDumps (.obj (scoreSentinelFields e)) ∧
    jLookup (scoreSentinelFields e) "score" = some (.num (-1)) ∧
    jLookup (scoreSentinelFields e) "reasoning" =
      some (.str ("Error: ".toList ++ e.msg)) := by
  refine ⟨?_, by rfl, by rfl⟩
  unfold get_health_score_dynamic_langchain
  rw [h]

/-- Witness for C4 on a concrete failing input: `"data"` bound to a string
makes `.get` raise `AttributeError`, and the returned text is the exact
serialized sentinel with score `-1`. -/
theorem c4_score_sentinel_witness :
    get_health_score_dynamic_langchain [("data", .str "corrupt".toList)]
        (.ok "ignored".toList) =
      jDumps (.obj (scoreSentinelFields .attributeError)) ∧
    jLookup (scoreSentinelFields .attributeError) "score" =
      some (.num (-1)) := by
  have h := c4_score_sentinel [("data", .str "corrupt".toList)]
    (.ok "ignored".toList) .attributeError (by rfl)
  exact ⟨h.1, h.2.1⟩

/-- Claim C5.  Stages 1 and 2 are total at their boundary: whenever their
bodies raise (an exception from text extraction or model invocation, or a
model output failing shape validation), the stage functions return the
`None` sentinel — in the embedding both are total functions into `Option`,
so no exception ever reaches the caller. -/
theorem c5_stage_boundary_totality :
    (∀ t r e, extractRawJsonBody t r = .error e →
      extract_raw_json_from_pdf t r = none) ∧
    (∀ r e, extractSpecificBody r = .error e →
      extract_specific_health_data r = none) ∧
    (∀ m r, extract_raw_json_from_pdf (.exn m) r = none) ∧
    (∀ t m, extract_raw_json_from_pdf (.ok t) (.exn m) = none) ∧
    (∀ t v, validateDynamicJSONModel v = none →
      extract_raw_json_from_pdf (.ok t) (.ok v) = none) ∧
    (∀ m, extract_specific_health_data (.exn m) = none) ∧
    (∀ v, validateExtractedHealthData v = none →
      extract_specific_health_data (.ok v) = none) := by
  refine ⟨?_, ?_, ?_, ?_, ?_, ?_, ?_⟩
  · intro t r e h
    unfold extract_raw_json_from_pdf
    rw [h]
  · intro r e h
    unfold extract_specific_health_data
    rw [h]
  · intro m r
    rfl
  · intro t m
    rfl
  · intro t v h
    simp only [extract_raw_json_from_pdf, extractRawJsonBody, h]
  · intro m
    rfl
  · intro v h
    simp only [extract_specific_health_data, extractSpecificBody, h]

/-- Witness for C5 at concrete failing inputs: an invocation exception in
stage 1, a shape-validation failure in stage 1 (a bare JSON number), and a
shape-validation failure in stage 2 (missing `reportDate`) all yield
`None`. -/
theorem c5_stage_boundary_totality_witness :
    extract_raw_json_from_pdf (.exn "RateLimitError") (.ok .null) = none ∧
    extract_raw_json_from_pdf (.ok "report text".toList) (.ok (.num 7)) =
      none ∧
    extract_specific_health_data
      (.ok (.obj [("healthParameters", .obj [])])) = none := by
  refine ⟨c5_stage_boundary_totality.2.2.1 "RateLimitError" (.ok .null),
    c5_stage_boundary_totality.2.2.2.2.1 "report text".toList (.num 7)
      (by rfl),
    c5_stage_boundary_totality.2.2.2.2.2.2
      (.obj [("healthParameters", .obj [])]) (by rfl)⟩

/-- On a successful model invocation, stage 2 returns exactly what pydantic
validation of the model response returns. -/
theorem extractSpecific_eq_validate (v : JValue) :
    extract_specific_health_data (.ok v) = validateExtractedHealthData v := by
  unfold extract_specific_health_data extractSpecificBody
  cases hv : validateExtractedHealthData v <;> simp [hv]

/-- The four designated graph parameters of src/data_processor.py:110. -/
def designatedKeys : List String :=
  ["specificGravity", "proteins", "sugar", "pusCells"]

/-- A model response for stage 2 that passes shape validation while its
`healthParameters` carries a key outside the designated four. -/
def c3Response : JValue :=
  .obj [("reportDate", .str "2024-01-15".toList),
        ("healthParameters",
          .obj [("hemoglobin", .num 13),
                ("specificGravity", .str "1.020".toList)])]

/-- The record stage 2 returns for `c3Response`. -/
def c3Record : ExtractedHealthData :=
  ⟨"2024-01-15".toList,
   [("hemoglobin", .num 13), ("specificGravity", .str "1.020".toList)]⟩

/-- Counterexample to claim C3 at a concrete model response: the response
passes shape validation, stage 2 returns it non-null, and its
`healthParameters` contains the key `hemoglobin`, which is outside the four
designated keys — the set difference is not empty. -/
theorem c3_counterexample :
    extract_specific_health_data (.ok c3Response) = some c3Record ∧
    c3Record.healthParameters.map Prod.fst =
      ["hemoglobin", "specificGravity"] ∧
    "hemoglobin" ∉ designatedKeys := by
  exact ⟨rfl, rfl, by decide⟩

/-- Claim C3 as amended.  Shape validation constrains `healthParameters`
only to be a string-keyed mapping: every non-null record stage 2 returns
carries exactly the `reportDate` and `healthParameters` fields of the model
response, unfiltered — so keys outside the designated four appear whenever
the model emits them, the restriction to
`{specificGravity, proteins, sugar, pusCells}` being enforced only by the
prompt instruction, not by validation. -/
theorem c3_parameters_unfiltered (v : JValue) (g : ExtractedHealthData)
    (h : extract_specific_health_data (.ok v) = some g) :
    ∃ kvs, v = .obj kvs ∧
      jLookup kvs "reportDate" = some (.str g.reportDate) ∧
      jLookup kvs "healthParameters" = some (.obj g.healthParameters) := by
  rw [extractSpecific_eq_validate] at h
  cases v with
  | obj kvs =>
    refine ⟨kvs, rfl, ?_⟩
    simp only [validateExtractedHealthData] at h
    split at h
    · rename_i d ps heq1 heq2
      rw [Option.some.injEq] at h
      subst h
      exact ⟨heq1, heq2⟩
    · exact Option.noConfusion h
  | null => simp [validateExtractedHealthData] at h
  | bool b => simp [validateExtractedHealthData] at h
  | num n => simp [validateExtractedHealthData] at h
  | str s => simp [validateExtractedHealthData] at h
  | arr xs => simp [validateExtractedHealthData] at h

/-- Witness for the amended C3 at a concrete well-formed response holding
exactly two of the designated parameters. -/
theorem c3_parameters_unfiltered_witness :
    ∃ kvs,
      (.obj [("reportDate", .str "2024-02-20".toList),
             ("healthParameters",
               .obj [("sugar", .str "negative".toList)])] : JValue) =
        .obj kvs ∧
      jLookup kvs "reportDate" = some (.str "2024-02-20".toList) ∧
      jLookup kvs "healthParameters" =
        some (.obj [("sugar", .str "negative".toList)]) := by
  exact c3_parameters_unfiltered
    (.obj [("reportDate", .str "2024-02-20".toList),
           ("healthParameters", .obj [("sugar", .str "negative".toList)])])
    ⟨"2024-02-20".toList, [("sugar", .str "negative".toList)]⟩ (by rfl)

/-- Claim C10.  A successful stage-1 result always dumps to a dict whose
single top-level key is `data`; a model response that is an object lacking
the `data` field still validates (the field has an empty-dict default), so
stage 1 succeeds with an empty record rather than returning `None`. -/
theorem c10_data_nesting :
    (∀ t r m, extract_raw_json_from_pdf t r = some m →
      modelDumpDynamic m = [("data", .obj m.data)]) ∧
    (∀ kvs, jLookup kvs "data" = none →
      validateDynamicJSONModel (.obj kvs) = some ⟨[]⟩) ∧
    (∀ t, extract_raw_json_from_pdf (.ok t) (.ok (.obj [])) = some ⟨[]⟩) := by
  refine ⟨fun t r m _ => rfl, ?_, fun t => rfl⟩
  intro kvs h
  simp only [validateDynamicJSONModel, h]

/-- Witness for C10: a response object with no `data` key validates to the
empty record, stage 1 succeeds on it, and the dump nests under `data`. -/
theorem c10_data_nesting_witness :
    modelDumpDynamic ⟨[("age", .num 30)]⟩ =
      [("data", .obj [("age", .num 30)])] ∧
    validateDynamicJSONModel (.obj [("patientName", .str "Jane".toList)]) =
      some ⟨[]⟩ ∧
    extract_raw_json_from_pdf (.ok "scanned text".toList)
      (.ok (.obj [])) = some ⟨[]⟩ := by
  refine ⟨?_, c10_data_nesting.2.1 [("patientName", .str "Jane".toList)]
    (by rfl), c10_data_nesting.2.2 "scanned text".toList⟩
  exact c10_data_nesting.1 (.ok "any".toList)
    (.ok (.obj [("data", .obj [("age", .num 30)])])) ⟨[("age", .num 30)]⟩
    (by rfl)

end HealthSync
